import Mathlib

/-!
SubsystemMap (src/log/SubsystemMap.h)

A shallow embedding of the class `ceph::logging::SubsystemMap` and a verification
of its level-gating contract.

Conventions of the embedding.

* `uint8_t` values are natural numbers; the one place where a wider value can
  enter a byte is the `uint8_t` parameter of the two setters, which reduces its
  argument modulo `2 ^ 8`.
* `unsigned` subsystem indices are natural numbers, `int` levels are integers.
* `std::array<uint8_t, N>` and `std::vector<ceph_subsys_item_t>` are lists, read
  with the checked lookup `xs[i]?`; a read or write past the end is reported as
  `Fault.out_of_range_access` instead of being performed.
* `ceph_assert` failing is `Fault.ceph_assert_failed`; a `static_assert` failing is
  `Fault.static_assert_failed` (the instantiation does not exist).
* A mutating member function returns either the new map or the fault together
  with the map as it was when the fault happened.
-/

namespace ceph.logging

/-- Modelled from the spec: the record type `ceph_subsys_item_t` of
`common/subsys_types.h`, which is not among the sources. The three fields are the
ones `SubsystemMap.h` reads and writes (`name`, `log_level`, `gather_level`); the two
levels are `uint8_t`, as `std::max(log, m_subsys[subsys].gather_level)` with
`uint8_t log` requires. -/
structure ceph_subsys_item_t where
  name : String
  log_level : Nat
  gather_level : Nat
deriving DecidableEq, Repr

/-- Ways in which a member function can end without a result. -/
inductive Fault where
  | static_assert_failed
  | ceph_assert_failed
  | out_of_range_access
deriving DecidableEq, Repr

/-- Modelled from the spec: `ceph_subsys_get_num()` of `common/subsys_types.h`, which
is not among the sources: the number `N` of subsystems is the size of the
descriptor table `ceph_subsys_get_as_array()`, here the parameter `tbl`. -/
def ceph_subsys_get_num (tbl : List ceph_subsys_item_t) : Nat :=
  tbl.length

/-- Modelled from the spec: the macro `expect(x, hint)` of `common/likely.h`, which is
not among the sources: its value is `x`, the second argument is a hint only. -/
def expect (x : Bool) (_hint : Bool) : Bool :=
  x

/-- The data members of `class SubsystemMap`: `m_gather_levels`, the byte array read
by `should_gather`, and `m_subsys`, the vector of records. -/
structure SubsystemMap where
  m_gather_levels : List Nat
  m_subsys : List ceph_subsys_item_t
deriving DecidableEq, Repr

/-- The body of the range-for loop of the constructor, run over the remaining
descriptors `s` with the running index `i`:
`m_subsys.emplace_back(item); m_gather_levels[i++] = std::max(item.log_level, item.gather_level);` -/
def SubsystemMap.ctor_loop : List ceph_subsys_item_t → Nat → SubsystemMap → SubsystemMap
  | [], _, m => m
  | item :: s, i, m =>
    SubsystemMap.ctor_loop s (i + 1)
      { m_subsys := m.m_subsys ++ [item],
        m_gather_levels := m.m_gather_levels.set i (max item.log_level item.gather_level) }

/-- The constructor `SubsystemMap::SubsystemMap()`. The array member has
`ceph_subsys_get_num()` slots that the constructor does not initialise before the
loop; `junk i` is the byte slot `i` happens to hold. The vector starts empty. -/
def SubsystemMap.ctor (tbl : List ceph_subsys_item_t) (junk : Nat → Nat) : SubsystemMap :=
  SubsystemMap.ctor_loop tbl 0
    { m_gather_levels := (List.range (ceph_subsys_get_num tbl)).map junk,
      m_subsys := [] }

/-- The static member `get_num()`. -/
def SubsystemMap.get_num (tbl : List ceph_subsys_item_t) : Nat :=
  ceph_subsys_get_num tbl

/-- The member `int get_log_level(unsigned subsys) const`. -/
def SubsystemMap.get_log_level (tbl : List ceph_subsys_item_t) (m : SubsystemMap)
    (subsys : Nat) : Except Fault Int :=
  let subsys := if subsys ≥ SubsystemMap.get_num tbl then 0 else subsys
  match m.m_subsys[subsys]? with
  | some item => .ok (item.log_level : Int)
  | none => .error .out_of_range_access

/-- The member `int get_gather_level(unsigned subsys) const`. -/
def SubsystemMap.get_gather_level (tbl : List ceph_subsys_item_t) (m : SubsystemMap)
    (subsys : Nat) : Except Fault Int :=
  let subsys := if subsys ≥ SubsystemMap.get_num tbl then 0 else subsys
  match m.m_subsys[subsys]? with
  | some item => .ok (item.gather_level : Int)
  | none => .error .out_of_range_access

/-- The member `const char* get_name(unsigned subsys) const`; it reads the
descriptor table, not the map. -/
def SubsystemMap.get_name (tbl : List ceph_subsys_item_t) (_m : SubsystemMap)
    (subsys : Nat) : Except Fault String :=
  let subsys := if subsys ≥ SubsystemMap.get_num tbl then 0 else subsys
  match tbl[subsys]? with
  | some item => .ok item.name
  | none => .error .out_of_range_access

/-- The member template `bool should_gather<SubV, LvlV>() const`. The function
`ceph_subsys_get_max_default_level` of `common/subsys_types.h` is not among the
sources and is a parameter. -/
def SubsystemMap.should_gather_static (tbl : List ceph_subsys_item_t)
    (ceph_subsys_get_max_default_level : Nat → Int) (m : SubsystemMap)
    (SubV : Nat) (LvlV : Int) : Except Fault Bool :=
  if ¬ (SubV < SubsystemMap.get_num tbl) then .error .static_assert_failed
  else if ¬ (LvlV ≥ -1 ∧ LvlV ≤ 200) then .error .static_assert_failed
  else if LvlV ≤ 0 then .ok true
  else
    match m.m_gather_levels[SubV]? with
    | some e =>
      .ok (expect (decide (LvlV ≤ (e : Int)))
        (decide (LvlV ≤ ceph_subsys_get_max_default_level SubV)))
    | none => .error .out_of_range_access

/-- The member `bool should_gather(const unsigned sub, int level) const`. -/
def SubsystemMap.should_gather (m : SubsystemMap) (sub : Nat) (level : Int) :
    Except Fault Bool :=
  if sub < m.m_subsys.length then
    match m.m_gather_levels[sub]? with
    | some e => .ok (decide (level ≤ (e : Int)))
    | none => .error .out_of_range_access
  else .error .ceph_assert_failed

/-- The member `void set_log_level(unsigned subsys, uint8_t log)`. -/
def SubsystemMap.set_log_level (m : SubsystemMap) (subsys : Nat) (log : Nat) :
    Except (Fault × SubsystemMap) SubsystemMap :=
  let log := log % 256
  if subsys < m.m_subsys.length then
    match m.m_subsys[subsys]? with
    | none => .error (.out_of_range_access, m)
    | some item =>
      let m1 : SubsystemMap :=
        { m with m_subsys := m.m_subsys.set subsys { item with log_level := log } }
      match m1.m_subsys[subsys]? with
      | none => .error (.out_of_range_access, m1)
      | some item1 =>
        if subsys < m1.m_gather_levels.length then
          .ok { m1 with
                m_gather_levels := m1.m_gather_levels.set subsys (max log item1.gather_level) }
        else .error (.out_of_range_access, m1)
  else .error (.ceph_assert_failed, m)

/-- The member `void set_gather_level(unsigned subsys, uint8_t gather)`. -/
def SubsystemMap.set_gather_level (m : SubsystemMap) (subsys : Nat) (gather : Nat) :
    Except (Fault × SubsystemMap) SubsystemMap :=
  let gather := gather % 256
  if subsys < m.m_subsys.length then
    match m.m_subsys[subsys]? with
    | none => .error (.out_of_range_access, m)
    | some item =>
      let m1 : SubsystemMap :=
        { m with m_subsys := m.m_subsys.set subsys { item with gather_level := gather } }
      match m1.m_subsys[subsys]? with
      | none => .error (.out_of_range_access, m1)
      | some item1 =>
        if subsys < m1.m_gather_levels.length then
          .ok { m1 with
                m_gather_levels := m1.m_gather_levels.set subsys (max item1.log_level gather) }
        else .error (.out_of_range_access, m1)
  else .error (.ceph_assert_failed, m)

/-- One call of a mutating member function. -/
inductive Call where
  | set_log_level (subsys : Nat) (log : Nat)
  | set_gather_level (subsys : Nat) (gather : Nat)
deriving DecidableEq, Repr

/-- Perform one call on a map. -/
def SubsystemMap.call (m : SubsystemMap) : Call → Except (Fault × SubsystemMap) SubsystemMap
  | .set_log_level subsys log => m.set_log_level subsys log
  | .set_gather_level subsys gather => m.set_gather_level subsys gather

/-- Perform a sequence of calls, first to last; a fault ends the run. -/
def SubsystemMap.run (m : SubsystemMap) : List Call → Except (Fault × SubsystemMap) SubsystemMap
  | [] => .ok m
  | c :: cs =>
    match m.call c with
    | .ok m1 => SubsystemMap.run m1 cs
    | .error e => .error e

/-- The states a program can observe: the constructor followed by a finite
sequence of setter calls, each of which returned. -/
def SubsystemMap.Reachable (tbl : List ceph_subsys_item_t) (m : SubsystemMap) : Prop :=
  ∃ (junk : Nat → Nat) (cs : List Call), (SubsystemMap.ctor tbl junk).run cs = .ok m

/-- The shape the member types give a map: the array has `N` slots and the vector
holds `N` records. -/
def SubsystemMap.Sized (tbl : List ceph_subsys_item_t) (m : SubsystemMap) : Prop :=
  m.m_gather_levels.length = SubsystemMap.get_num tbl ∧
    m.m_subsys.length = SubsystemMap.get_num tbl

/-- The effective level a record stands for: `std::max(log_level, gather_level)`. -/
def effective (item : ceph_subsys_item_t) : Nat :=
  max item.log_level item.gather_level

/-- The cache agrees with the records, slot by slot. -/
def SubsystemMap.Consistent (m : SubsystemMap) : Prop :=
  m.m_gather_levels = m.m_subsys.map effective

instance (tbl : List ceph_subsys_item_t) (m : SubsystemMap) :
    Decidable (SubsystemMap.Sized tbl m) := by
  unfold SubsystemMap.Sized; infer_instance

/-- The descriptor table of the scenario of the specification: three subsystems with
the defaults `(1,1)`, `(5,0)`, `(0,3)`. -/
def tbl3 : List ceph_subsys_item_t :=
  [ { name := "none", log_level := 1, gather_level := 1 },
    { name := "osd", log_level := 5, gather_level := 0 },
    { name := "ms", log_level := 0, gather_level := 3 } ]

/-- The map constructed from `tbl3`, with every slot holding `0xAA` beforehand. -/
def map3 : SubsystemMap :=
  SubsystemMap.ctor tbl3 (fun _ => 170)

/-- The implicit conversion of an `int` argument to the `uint8_t` parameter of a
setter, done at the call: the value modulo `2 ^ 8`. -/
def uint8_t_of_int (x : Int) : Nat :=
  (x % 256).toNat

/-- The map constructed from the empty descriptor table (`N = 0`). -/
def map0 : SubsystemMap :=
  SubsystemMap.ctor [] (fun _ => 170)

/-! ## The constructor -/

theorem ctor_loop_m_subsys (s : List ceph_subsys_item_t) (i : Nat) (m : SubsystemMap) :
    (SubsystemMap.ctor_loop s i m).m_subsys = m.m_subsys ++ s := by
  induction s generalizing i m with
  | nil => simp [SubsystemMap.ctor_loop]
  | cons item s ih => simp [SubsystemMap.ctor_loop, ih]

theorem ctor_loop_length (s : List ceph_subsys_item_t) (i : Nat) (m : SubsystemMap) :
    (SubsystemMap.ctor_loop s i m).m_gather_levels.length = m.m_gather_levels.length := by
  induction s generalizing i m with
  | nil => simp [SubsystemMap.ctor_loop]
  | cons item s ih => simp [SubsystemMap.ctor_loop, ih]

theorem ctor_loop_getElem? (s : List ceph_subsys_item_t) (i : Nat) (m : SubsystemMap)
    (h : i + s.length ≤ m.m_gather_levels.length) (j : Nat) :
    (SubsystemMap.ctor_loop s i m).m_gather_levels[j]? =
      if i ≤ j then
        if j < i + s.length then
          (s[j - i]?).map (fun item => max item.log_level item.gather_level)
        else m.m_gather_levels[j]?
      else m.m_gather_levels[j]? := by
  induction s generalizing i m with
  | nil =>
    simp only [SubsystemMap.ctor_loop, List.length_nil, Nat.add_zero]
    split
    · rw [if_neg (by omega)]
    · rfl
  | cons item s ih =>
    simp only [SubsystemMap.ctor_loop]
    rw [ih]
    · simp only [List.length_cons] at h ⊢
      by_cases hij : i = j
      · subst hij
        simp [List.getElem?_set]
        omega
      · by_cases hlt : i ≤ j
        · have h1 : i + 1 ≤ j := by omega
          have h2 : j - i = (j - (i + 1)) + 1 := by omega
          simp only [h1, hlt, if_true]
          rw [h2, List.getElem?_cons_succ]
          have h3 : (j < i + 1 + s.length) = (j < i + (s.length + 1)) := by
            apply propext; omega
          simp only [h3]
          split
          · rfl
          · simp [List.getElem?_set, hij]
        · have h1 : ¬ (i + 1 ≤ j) := by omega
          simp [h1, hlt, List.getElem?_set, hij]
    · simp only [List.length_cons, List.length_set] at h ⊢
      omega

theorem ctor_m_subsys (tbl : List ceph_subsys_item_t) (junk : Nat → Nat) :
    (SubsystemMap.ctor tbl junk).m_subsys = tbl := by
  simp [SubsystemMap.ctor, ctor_loop_m_subsys]

theorem ctor_m_gather_levels (tbl : List ceph_subsys_item_t) (junk : Nat → Nat) :
    (SubsystemMap.ctor tbl junk).m_gather_levels = tbl.map effective := by
  apply List.ext_getElem?
  intro j
  rw [SubsystemMap.ctor, ctor_loop_getElem?]
  · simp only [Nat.zero_le, if_true, Nat.zero_add, Nat.sub_zero, List.getElem?_map]
    split
    · rfl
    · rename_i hj
      have hj2 : tbl.length ≤ j := by omega
      rw [List.getElem?_eq_none hj2]
      rw [List.getElem?_eq_none (by simpa [ceph_subsys_get_num] using hj2)]
      rfl
  · simp [ceph_subsys_get_num]

/-! ## The setters -/

theorem set_log_level_ok (m : SubsystemMap) (subsys log : Nat) (item : ceph_subsys_item_t)
    (h : m.m_subsys[subsys]? = some item) (hg : subsys < m.m_gather_levels.length) :
    m.set_log_level subsys log = .ok
      { m_subsys := m.m_subsys.set subsys { item with log_level := log % 256 },
        m_gather_levels :=
          m.m_gather_levels.set subsys (max (log % 256) item.gather_level) } := by
  have hlt : subsys < m.m_subsys.length := (List.getElem?_eq_some.mp h).1
  simp [SubsystemMap.set_log_level, h, hlt, hg, List.getElem?_set]

theorem set_gather_level_ok (m : SubsystemMap) (subsys gather : Nat)
    (item : ceph_subsys_item_t)
    (h : m.m_subsys[subsys]? = some item) (hg : subsys < m.m_gather_levels.length) :
    m.set_gather_level subsys gather = .ok
      { m_subsys := m.m_subsys.set subsys { item with gather_level := gather % 256 },
        m_gather_levels :=
          m.m_gather_levels.set subsys (max item.log_level (gather % 256)) } := by
  have hlt : subsys < m.m_subsys.length := (List.getElem?_eq_some.mp h).1
  simp [SubsystemMap.set_gather_level, h, hlt, hg, List.getElem?_set]

theorem set_log_level_assert (m : SubsystemMap) (subsys log : Nat)
    (h : m.m_subsys.length ≤ subsys) :
    m.set_log_level subsys log = .error (.ceph_assert_failed, m) := by
  simp [SubsystemMap.set_log_level, Nat.not_lt.mpr h]

theorem set_gather_level_assert (m : SubsystemMap) (subsys gather : Nat)
    (h : m.m_subsys.length ≤ subsys) :
    m.set_gather_level subsys gather = .error (.ceph_assert_failed, m) := by
  simp [SubsystemMap.set_gather_level, Nat.not_lt.mpr h]

/-- In a consistent map the array is as long as the vector. -/
theorem consistent_length (m : SubsystemMap) (h : m.Consistent) :
    m.m_gather_levels.length = m.m_subsys.length := by
  rw [h, List.length_map]

theorem set_log_level_ok_inv (m m1 : SubsystemMap) (subsys log : Nat)
    (h : m.set_log_level subsys log = .ok m1) :
    ∃ item, m.m_subsys[subsys]? = some item ∧ subsys < m.m_gather_levels.length := by
  by_cases hlt : subsys < m.m_subsys.length
  · refine ⟨m.m_subsys[subsys], List.getElem?_eq_getElem hlt, ?_⟩
    by_contra hn
    simp [SubsystemMap.set_log_level, hlt, hn, List.getElem?_set] at h
  · simp [SubsystemMap.set_log_level, hlt] at h

theorem set_gather_level_ok_inv (m m1 : SubsystemMap) (subsys gather : Nat)
    (h : m.set_gather_level subsys gather = .ok m1) :
    ∃ item, m.m_subsys[subsys]? = some item ∧ subsys < m.m_gather_levels.length := by
  by_cases hlt : subsys < m.m_subsys.length
  · refine ⟨m.m_subsys[subsys], List.getElem?_eq_getElem hlt, ?_⟩
    by_contra hn
    simp [SubsystemMap.set_gather_level, hlt, hn, List.getElem?_set] at h
  · simp [SubsystemMap.set_gather_level, hlt] at h

/-! ## Invariants of the reachable states -/

theorem consistent_ctor (tbl : List ceph_subsys_item_t) (junk : Nat → Nat) :
    (SubsystemMap.ctor tbl junk).Consistent := by
  unfold SubsystemMap.Consistent
  rw [ctor_m_gather_levels, ctor_m_subsys]

theorem sized_ctor (tbl : List ceph_subsys_item_t) (junk : Nat → Nat) :
    (SubsystemMap.ctor tbl junk).Sized tbl := by
  unfold SubsystemMap.Sized
  rw [ctor_m_gather_levels, ctor_m_subsys]
  simp [SubsystemMap.get_num, ceph_subsys_get_num]

theorem consistent_set_log_level (m m1 : SubsystemMap) (subsys log : Nat)
    (hc : m.Consistent) (h : m.set_log_level subsys log = .ok m1) : m1.Consistent := by
  obtain ⟨item, hi, hg⟩ := set_log_level_ok_inv m m1 subsys log h
  rw [set_log_level_ok m subsys log item hi hg] at h
  injection h with h
  subst h
  unfold SubsystemMap.Consistent at hc ⊢
  simp only [List.map_set, hc]
  rfl

theorem consistent_set_gather_level (m m1 : SubsystemMap) (subsys gather : Nat)
    (hc : m.Consistent) (h : m.set_gather_level subsys gather = .ok m1) : m1.Consistent := by
  obtain ⟨item, hi, hg⟩ := set_gather_level_ok_inv m m1 subsys gather h
  rw [set_gather_level_ok m subsys gather item hi hg] at h
  injection h with h
  subst h
  unfold SubsystemMap.Consistent at hc ⊢
  simp only [List.map_set, hc]
  rfl

theorem sized_set_log_level (tbl : List ceph_subsys_item_t) (m m1 : SubsystemMap)
    (subsys log : Nat) (hs : m.Sized tbl) (h : m.set_log_level subsys log = .ok m1) :
    m1.Sized tbl := by
  obtain ⟨item, hi, hg⟩ := set_log_level_ok_inv m m1 subsys log h
  rw [set_log_level_ok m subsys log item hi hg] at h
  injection h with h
  subst h
  simpa [SubsystemMap.Sized] using hs

theorem sized_set_gather_level (tbl : List ceph_subsys_item_t) (m m1 : SubsystemMap)
    (subsys gather : Nat) (hs : m.Sized tbl) (h : m.set_gather_level subsys gather = .ok m1) :
    m1.Sized tbl := by
  obtain ⟨item, hi, hg⟩ := set_gather_level_ok_inv m m1 subsys gather h
  rw [set_gather_level_ok m subsys gather item hi hg] at h
  injection h with h
  subst h
  simpa [SubsystemMap.Sized] using hs

/-- A property that both setters preserve is preserved by every run. -/
theorem run_preserves (P : SubsystemMap → Prop)
    (hl : ∀ m m1 subsys log, P m → m.set_log_level subsys log = .ok m1 → P m1)
    (hg : ∀ m m1 subsys gather, P m → m.set_gather_level subsys gather = .ok m1 → P m1)
    (cs : List Call) (m m1 : SubsystemMap) (hm : P m) (h : m.run cs = .ok m1) : P m1 := by
  induction cs generalizing m with
  | nil =>
    simp only [SubsystemMap.run] at h
    injection h with h
    exact h ▸ hm
  | cons c cs ih =>
    simp only [SubsystemMap.run] at h
    split at h
    · rename_i m2 hc
      refine ih m2 ?_ h
      cases c with
      | set_log_level subsys log => exact hl m m2 subsys log hm hc
      | set_gather_level subsys gather => exact hg m m2 subsys gather hm hc
    · cases h

theorem reachable_consistent (tbl : List ceph_subsys_item_t) (m : SubsystemMap)
    (h : m.Reachable tbl) : m.Consistent := by
  obtain ⟨junk, cs, hrun⟩ := h
  exact run_preserves SubsystemMap.Consistent consistent_set_log_level
    consistent_set_gather_level cs _ m (consistent_ctor tbl junk) hrun

theorem reachable_sized (tbl : List ceph_subsys_item_t) (m : SubsystemMap)
    (h : m.Reachable tbl) : m.Sized tbl := by
  obtain ⟨junk, cs, hrun⟩ := h
  exact run_preserves (SubsystemMap.Sized tbl) (sized_set_log_level tbl)
    (sized_set_gather_level tbl) cs _ m (sized_ctor tbl junk) hrun

/-- The map of the scenario is a reachable state. -/
theorem map3_reachable : map3.Reachable tbl3 :=
  ⟨fun _ => 170, [], rfl⟩

/-! ## The claims -/

/-- C1: in every state reachable from construction by a finite sequence of
`set_log_level` / `set_gather_level` calls, for every index `i < N` the cached byte
`m_gather_levels[i]` equals `max(m_subsys[i].log_level, m_subsys[i].gather_level)`. -/
theorem C1_cache_consistency (tbl : List ceph_subsys_item_t) (m : SubsystemMap)
    (h : m.Reachable tbl) (i : Nat) (hi : i < SubsystemMap.get_num tbl) :
    ∃ e r, m.m_gather_levels[i]? = some e ∧ m.m_subsys[i]? = some r ∧
      e = max r.log_level r.gather_level := by
  have hc := reachable_consistent tbl m h
  have hs := (reachable_sized tbl m h).2
  have hlt : i < m.m_subsys.length := by omega
  refine ⟨max m.m_subsys[i].log_level m.m_subsys[i].gather_level, m.m_subsys[i], ?_,
    List.getElem?_eq_getElem hlt, rfl⟩
  rw [hc, List.getElem?_map, List.getElem?_eq_getElem hlt]
  rfl

/-- C1 at a concrete reachable state: the scenario table after
`set_gather_level(2, 10)`, `set_log_level(0, 7)`, `set_log_level(2, 300)`, slot 2. -/
theorem C1_cache_consistency_witness :
    ∃ e r,
      ({ m_gather_levels := [7, 5, 44],
         m_subsys := [ { name := "none", log_level := 7, gather_level := 1 },
                       { name := "osd", log_level := 5, gather_level := 0 },
                       { name := "ms", log_level := 44, gather_level := 10 } ] } :
        SubsystemMap).m_gather_levels[2]? = some e ∧
      ({ m_gather_levels := [7, 5, 44],
         m_subsys := [ { name := "none", log_level := 7, gather_level := 1 },
                       { name := "osd", log_level := 5, gather_level := 0 },
                       { name := "ms", log_level := 44, gather_level := 10 } ] } :
        SubsystemMap).m_subsys[2]? = some r ∧
      e = max r.log_level r.gather_level :=
  C1_cache_consistency tbl3 _
    ⟨fun _ => 170,
      [.set_gather_level 2 10, .set_log_level 0 7, .set_log_level 2 300], rfl⟩
    2 (by decide)

/-- C2: for every valid subsystem index `i < N` and every integer `level`, the
runtime `should_gather(i, level)` returns a result, and the result is true if and
only if `level <= effective[i]`, the cached byte read as a non-negative integer. -/
theorem C2_should_gather_iff (tbl : List ceph_subsys_item_t) (m : SubsystemMap)
    (hs : m.Sized tbl) (i : Nat) (hi : i < SubsystemMap.get_num tbl) (level : Int) :
    ∃ e b, m.m_gather_levels[i]? = some e ∧ m.should_gather i level = .ok b ∧
      (b = true ↔ level ≤ (e : Int)) := by
  obtain ⟨hg, hr⟩ := hs
  have hlt : i < m.m_subsys.length := by omega
  have hgl : i < m.m_gather_levels.length := by omega
  refine ⟨m.m_gather_levels[i], decide (level ≤ (m.m_gather_levels[i] : Int)),
    List.getElem?_eq_getElem hgl, ?_, by simp⟩
  simp [SubsystemMap.should_gather, hlt, List.getElem?_eq_getElem hgl]

/-- C2 on the scenario map, subsystem 1 (effective level 5), level 5. -/
theorem C2_should_gather_iff_witness :
    ∃ (e : Nat) (b : Bool),
      map3.m_gather_levels[1]? = some e ∧ map3.should_gather 1 5 = .ok b ∧
      (b = true ↔ (5 : Int) ≤ (e : Int)) :=
  C2_should_gather_iff tbl3 map3 (by decide) 1 (by decide) 5

/-- C3, as stated, fails: on the scenario map (`N = 3`) the out-of-range call
`should_gather(3, 0)` ends in the assertion failure while `should_gather(0, 0)`
returns true, so the two do not agree. -/
theorem C3_counterexample :
    map3.Reachable tbl3 ∧ 3 ≥ SubsystemMap.get_num tbl3 ∧
      map3.should_gather 3 0 = .error .ceph_assert_failed ∧
      map3.should_gather 0 0 = .ok true ∧
      map3.should_gather 3 0 ≠ map3.should_gather 0 0 :=
  ⟨⟨fun _ => 170, [], rfl⟩, by decide, rfl, rfl, fun h => by cases h⟩

/-- C3, amended: for every out-of-range subsystem index `sub >= N` and every integer
`level`, the runtime `should_gather(sub, level)` fails its assertion
`ceph_assert(sub < m_subsys.size())` and returns no result. -/
theorem C3_should_gather_out_of_range_asserts (tbl : List ceph_subsys_item_t)
    (m : SubsystemMap) (hs : m.Sized tbl) (sub : Nat)
    (hsub : sub ≥ SubsystemMap.get_num tbl) (level : Int) :
    m.should_gather sub level = .error .ceph_assert_failed := by
  have hlt : ¬ sub < m.m_subsys.length := by
    have := hs.2
    omega
  simp [SubsystemMap.should_gather, hlt]

/-- C3 amended, on the scenario map with the index 7 and the level -1. -/
theorem C3_should_gather_out_of_range_asserts_witness :
    map3.should_gather 7 (-1) = .error .ceph_assert_failed :=
  C3_should_gather_out_of_range_asserts tbl3 map3 (by decide) 7 (by decide) (-1)

/-- C4: the configuration read queries clamp to zero. For every out-of-range index
`sub >= N` and every state, `get_log_level(sub) = get_log_level(0)`,
`get_gather_level(sub) = get_gather_level(0)` and `get_name(sub) = get_name(0)`; for
every in-range `sub` they return `record[sub].log_level`, `record[sub].gather_level`
and the name of descriptor `sub`. -/
theorem C4_read_queries_clamp (tbl : List ceph_subsys_item_t) (m : SubsystemMap)
    (sub : Nat) :
    (sub ≥ SubsystemMap.get_num tbl →
      m.get_log_level tbl sub = m.get_log_level tbl 0 ∧
      m.get_gather_level tbl sub = m.get_gather_level tbl 0 ∧
      m.get_name tbl sub = m.get_name tbl 0) ∧
    (m.Sized tbl → sub < SubsystemMap.get_num tbl →
      ∃ r d, m.m_subsys[sub]? = some r ∧ tbl[sub]? = some d ∧
        m.get_log_level tbl sub = .ok (r.log_level : Int) ∧
        m.get_gather_level tbl sub = .ok (r.gather_level : Int) ∧
        m.get_name tbl sub = .ok d.name) := by
  constructor
  · intro h
    simp [SubsystemMap.get_log_level, SubsystemMap.get_gather_level,
      SubsystemMap.get_name, h]
  · intro hs h
    have hlt : sub < m.m_subsys.length := by
      have := hs.2
      omega
    have htl : sub < tbl.length := h
    have hn : ¬ sub ≥ SubsystemMap.get_num tbl := by omega
    refine ⟨m.m_subsys[sub], tbl[sub], List.getElem?_eq_getElem hlt,
      List.getElem?_eq_getElem htl, ?_, ?_, ?_⟩
    · simp [SubsystemMap.get_log_level, hn, List.getElem?_eq_getElem hlt]
    · simp [SubsystemMap.get_gather_level, hn, List.getElem?_eq_getElem hlt]
    · simp [SubsystemMap.get_name, hn, List.getElem?_eq_getElem htl]

/-- C4 on the scenario map: index 9 reads as index 0, index 1 reads record 1. -/
theorem C4_read_queries_clamp_witness :
    (map3.get_log_level tbl3 9 = map3.get_log_level tbl3 0 ∧
      map3.get_gather_level tbl3 9 = map3.get_gather_level tbl3 0 ∧
      map3.get_name tbl3 9 = map3.get_name tbl3 0) ∧
    (∃ r d, map3.m_subsys[1]? = some r ∧ tbl3[1]? = some d ∧
        map3.get_log_level tbl3 1 = .ok (r.log_level : Int) ∧
        map3.get_gather_level tbl3 1 = .ok (r.gather_level : Int) ∧
        map3.get_name tbl3 1 = .ok d.name) :=
  ⟨(C4_read_queries_clamp tbl3 map3 9).1 (by decide),
    (C4_read_queries_clamp tbl3 map3 1).2 (by decide) (by decide)⟩

/-- C5: writes with an out-of-range index are fatal. `set_log_level(sub, v)` and
`set_gather_level(sub, v)` fail if and only if `sub >= N`; a failure is the assertion
failure, and the map at that moment is the map before the call: no record and no
effective entry has been modified. -/
theorem C5_write_out_of_range_fatal (tbl : List ceph_subsys_item_t) (m : SubsystemMap)
    (hs : m.Sized tbl) (sub v : Nat) :
    ((∃ e, m.set_log_level sub v = .error e) ↔ sub ≥ SubsystemMap.get_num tbl) ∧
    ((∃ e, m.set_gather_level sub v = .error e) ↔ sub ≥ SubsystemMap.get_num tbl) ∧
    (∀ e, m.set_log_level sub v = .error e → e = (Fault.ceph_assert_failed, m)) ∧
    (∀ e, m.set_gather_level sub v = .error e → e = (Fault.ceph_assert_failed, m)) := by
  obtain ⟨hg, hr⟩ := hs
  by_cases hsub : sub < SubsystemMap.get_num tbl
  · have hlt : sub < m.m_subsys.length := by omega
    have hgl : sub < m.m_gather_levels.length := by omega
    have h1 := set_log_level_ok m sub v m.m_subsys[sub] (List.getElem?_eq_getElem hlt) hgl
    have h2 := set_gather_level_ok m sub v m.m_subsys[sub] (List.getElem?_eq_getElem hlt) hgl
    have hn : ¬ sub ≥ SubsystemMap.get_num tbl := by omega
    rw [h1, h2]
    simp [hn]
  · have hle : m.m_subsys.length ≤ sub := by omega
    have hge : sub ≥ SubsystemMap.get_num tbl := by omega
    rw [set_log_level_assert m sub v hle, set_gather_level_assert m sub v hle]
    simp [hge]

/-- C5 on the scenario map with the out-of-range index 3. -/
theorem C5_write_out_of_range_fatal_witness :
    ((∃ e, map3.set_log_level 3 9 = .error e) ↔ 3 ≥ SubsystemMap.get_num tbl3) ∧
    ((∃ e, map3.set_gather_level 3 9 = .error e) ↔ 3 ≥ SubsystemMap.get_num tbl3) ∧
    (∀ e, map3.set_log_level 3 9 = .error e → e = (Fault.ceph_assert_failed, map3)) ∧
    (∀ e, map3.set_gather_level 3 9 = .error e → e = (Fault.ceph_assert_failed, map3)) :=
  C5_write_out_of_range_fatal tbl3 map3 (by decide) 3 9

/-- C6: the compile-time `should_gather<Sub, Lvl>()` with a level `Lvl <= 0` that the
`static_assert` admits (`Lvl` is `-1` or `0`) returns true for every valid `Sub` and
every map state, whatever log and gather levels are configured. -/
theorem C6_static_should_gather_nonpositive (tbl : List ceph_subsys_item_t)
    (max_default_level : Nat → Int) (m : SubsystemMap) (Sub : Nat) (Lvl : Int)
    (hsub : Sub < SubsystemMap.get_num tbl) (hlo : -1 ≤ Lvl) (hhi : Lvl ≤ 0) :
    m.should_gather_static tbl max_default_level Sub Lvl = .ok true := by
  have h200 : Lvl ≤ 200 := by omega
  simp [SubsystemMap.should_gather_static, hsub, hlo, hhi, h200]

/-- C6 at a map whose cache and records are all zero, subsystem 2, level -1. -/
theorem C6_static_should_gather_nonpositive_witness :
    ({ m_gather_levels := [0, 0, 0],
       m_subsys := [ { name := "none", log_level := 0, gather_level := 0 },
                     { name := "osd", log_level := 0, gather_level := 0 },
                     { name := "ms", log_level := 0, gather_level := 0 } ] } :
      SubsystemMap).should_gather_static tbl3 (fun _ => 5) 2 (-1) = .ok true :=
  C6_static_should_gather_nonpositive tbl3 (fun _ => 5) _ 2 (-1)
    (by decide) (by decide) (by decide)

/-- C7: for every valid `sub < N` and every level `v` in `0..255`, `set_log_level(sub, v)`
returns, afterwards `get_log_level(sub)` is `v`, and `effective[sub]` is `max(v, g)`
where `g` is the gather level of `sub` before the call. -/
theorem C7_set_log_level_post (tbl : List ceph_subsys_item_t) (m : SubsystemMap)
    (hs : m.Sized tbl) (sub v : Nat) (hsub : sub < SubsystemMap.get_num tbl)
    (hv : v < 256) :
    ∃ (m1 : SubsystemMap) (g : Nat),
      m.set_log_level sub v = .ok m1 ∧
      m.get_gather_level tbl sub = .ok (g : Int) ∧
      m1.get_log_level tbl sub = .ok (v : Int) ∧
      m1.m_gather_levels[sub]? = some (max v g) := by
  obtain ⟨hg, hr⟩ := hs
  have hlt : sub < m.m_subsys.length := by omega
  have hgl : sub < m.m_gather_levels.length := by omega
  have hn : ¬ sub ≥ SubsystemMap.get_num tbl := by omega
  have hmod : v % 256 = v := Nat.mod_eq_of_lt hv
  refine ⟨_, m.m_subsys[sub].gather_level,
    set_log_level_ok m sub v m.m_subsys[sub] (List.getElem?_eq_getElem hlt) hgl, ?_, ?_, ?_⟩
  · simp [SubsystemMap.get_gather_level, hn, List.getElem?_eq_getElem hlt]
  · simp [SubsystemMap.get_log_level, hn, List.getElem?_set, hlt, hmod]
  · simp [List.getElem?_set, hgl, hmod]

/-- C7 on the scenario map: `set_log_level(1, 2)` where the gather level is 0. -/
theorem C7_set_log_level_post_witness :
    ∃ (m1 : SubsystemMap) (g : Nat),
      map3.set_log_level 1 2 = .ok m1 ∧
      map3.get_gather_level tbl3 1 = .ok (g : Int) ∧
      m1.get_log_level tbl3 1 = .ok ((2 : Nat) : Int) ∧
      m1.m_gather_levels[1]? = some (max 2 g) :=
  C7_set_log_level_post tbl3 map3 (by decide) 1 2 (by decide) (by decide)

/-- C8: for every valid `sub < N` and every level `v` in `0..255`,
`set_gather_level(sub, v)` returns, afterwards `get_gather_level(sub)` is `v`, and
`effective[sub]` is `max(l, v)` where `l` is the log level of `sub` before the call. -/
theorem C8_set_gather_level_post (tbl : List ceph_subsys_item_t) (m : SubsystemMap)
    (hs : m.Sized tbl) (sub v : Nat) (hsub : sub < SubsystemMap.get_num tbl)
    (hv : v < 256) :
    ∃ (m1 : SubsystemMap) (l : Nat),
      m.set_gather_level sub v = .ok m1 ∧
      m.get_log_level tbl sub = .ok (l : Int) ∧
      m1.get_gather_level tbl sub = .ok (v : Int) ∧
      m1.m_gather_levels[sub]? = some (max l v) := by
  obtain ⟨hg, hr⟩ := hs
  have hlt : sub < m.m_subsys.length := by omega
  have hgl : sub < m.m_gather_levels.length := by omega
  have hn : ¬ sub ≥ SubsystemMap.get_num tbl := by omega
  have hmod : v % 256 = v := Nat.mod_eq_of_lt hv
  refine ⟨_, m.m_subsys[sub].log_level,
    set_gather_level_ok m sub v m.m_subsys[sub] (List.getElem?_eq_getElem hlt) hgl,
    ?_, ?_, ?_⟩
  · simp [SubsystemMap.get_log_level, hn, List.getElem?_eq_getElem hlt]
  · simp [SubsystemMap.get_gather_level, hn, List.getElem?_set, hlt, hmod]
  · simp [List.getElem?_set, hgl, hmod]

/-- C8 on the scenario of the specification: on the defaults `(1,1)`, `(5,0)`, `(0,3)`,
`set_gather_level(2, 10)` returns a map whose cache is `[1, 5, 10]`: `effective[2]` is
`max(0, 10) = 10` and the other entries are unchanged. -/
theorem C8_set_gather_level_post_witness :
    (∃ (m1 : SubsystemMap) (l : Nat),
      map3.set_gather_level 2 10 = .ok m1 ∧
      map3.get_log_level tbl3 2 = .ok (l : Int) ∧
      m1.get_gather_level tbl3 2 = .ok ((10 : Nat) : Int) ∧
      m1.m_gather_levels[2]? = some (max l 10)) ∧
    map3.get_log_level tbl3 2 = .ok 0 ∧
    (map3.set_gather_level 2 10).toOption.map (fun m1 => m1.m_gather_levels) =
      some [1, 5, 10] :=
  ⟨C8_set_gather_level_post tbl3 map3 (by decide) 2 10 (by decide) (by decide), rfl, rfl⟩

/-- C9: frame of the setters. For every valid `sub` and every valid `j != sub`,
`set_log_level(sub, v)` and `set_gather_level(sub, v)` leave record `j` (hence its
log level and its gather level) and `effective[j]` unchanged; `set_log_level` also
leaves the gather level of `sub` unchanged, and `set_gather_level` its log level. -/
theorem C9_setters_frame (tbl : List ceph_subsys_item_t) (m : SubsystemMap)
    (hs : m.Sized tbl) (sub v : Nat) (hsub : sub < SubsystemMap.get_num tbl) :
    (∃ m1, m.set_log_level sub v = .ok m1 ∧
      m1.get_gather_level tbl sub = m.get_gather_level tbl sub ∧
      ∀ j, j < SubsystemMap.get_num tbl → j ≠ sub →
        m1.m_subsys[j]? = m.m_subsys[j]? ∧
        m1.get_log_level tbl j = m.get_log_level tbl j ∧
        m1.get_gather_level tbl j = m.get_gather_level tbl j ∧
        m1.m_gather_levels[j]? = m.m_gather_levels[j]?) ∧
    (∃ m2, m.set_gather_level sub v = .ok m2 ∧
      m2.get_log_level tbl sub = m.get_log_level tbl sub ∧
      ∀ j, j < SubsystemMap.get_num tbl → j ≠ sub →
        m2.m_subsys[j]? = m.m_subsys[j]? ∧
        m2.get_log_level tbl j = m.get_log_level tbl j ∧
        m2.get_gather_level tbl j = m.get_gather_level tbl j ∧
        m2.m_gather_levels[j]? = m.m_gather_levels[j]?) := by
  obtain ⟨hg, hr⟩ := hs
  have hlt : sub < m.m_subsys.length := by omega
  have hgl : sub < m.m_gather_levels.length := by omega
  have hn : ¬ sub ≥ SubsystemMap.get_num tbl := by omega
  constructor
  · refine ⟨_, set_log_level_ok m sub v m.m_subsys[sub] (List.getElem?_eq_getElem hlt) hgl,
      ?_, ?_⟩
    · simp [SubsystemMap.get_gather_level, hn, List.getElem?_set, hlt]
    · intro j hj hne
      have hnj : ¬ j ≥ SubsystemMap.get_num tbl := by omega
      have hne2 : sub ≠ j := fun h => hne h.symm
      simp [SubsystemMap.get_log_level, SubsystemMap.get_gather_level, hnj,
        List.getElem?_set_ne hne2]
  · refine ⟨_,
      set_gather_level_ok m sub v m.m_subsys[sub] (List.getElem?_eq_getElem hlt) hgl,
      ?_, ?_⟩
    · simp [SubsystemMap.get_log_level, hn, List.getElem?_set, hlt]
    · intro j hj hne
      have hnj : ¬ j ≥ SubsystemMap.get_num tbl := by omega
      have hne2 : sub ≠ j := fun h => hne h.symm
      simp [SubsystemMap.get_log_level, SubsystemMap.get_gather_level, hnj,
        List.getElem?_set_ne hne2]

/-- C9 on the scenario map with `sub = 2` and the level 10. -/
theorem C9_setters_frame_witness :
    (∃ m1, map3.set_log_level 2 10 = .ok m1 ∧
      m1.get_gather_level tbl3 2 = map3.get_gather_level tbl3 2 ∧
      ∀ j, j < SubsystemMap.get_num tbl3 → j ≠ 2 →
        m1.m_subsys[j]? = map3.m_subsys[j]? ∧
        m1.get_log_level tbl3 j = map3.get_log_level tbl3 j ∧
        m1.get_gather_level tbl3 j = map3.get_gather_level tbl3 j ∧
        m1.m_gather_levels[j]? = map3.m_gather_levels[j]?) ∧
    (∃ m2, map3.set_gather_level 2 10 = .ok m2 ∧
      m2.get_log_level tbl3 2 = map3.get_log_level tbl3 2 ∧
      ∀ j, j < SubsystemMap.get_num tbl3 → j ≠ 2 →
        m2.m_subsys[j]? = map3.m_subsys[j]? ∧
        m2.get_log_level tbl3 j = map3.get_log_level tbl3 j ∧
        m2.get_gather_level tbl3 j = map3.get_gather_level tbl3 j ∧
        m2.m_gather_levels[j]? = map3.m_gather_levels[j]?) :=
  C9_setters_frame tbl3 map3 (by decide) 2 10 (by decide)

/-- C10: construction. For every descriptor table, whatever the array held before,
and every index `i < N`, the freshly constructed map has `record[i]` equal to
descriptor `i` (same name, default log level and default gather level, at the same
index) and `effective[i] = max(default_log[i], default_gather[i])`. On the defaults
`(1,1)`, `(5,0)`, `(0,3)` the cache is `[1, 5, 3]`, `should_gather(1, 5)` is true and
`should_gather(1, 6)` is false. -/
theorem C10_construction (tbl : List ceph_subsys_item_t) (junk : Nat → Nat) :
    (∀ i, i < SubsystemMap.get_num tbl →
      ∃ d, tbl[i]? = some d ∧
        (SubsystemMap.ctor tbl junk).m_subsys[i]? = some d ∧
        (SubsystemMap.ctor tbl junk).m_gather_levels[i]? =
          some (max d.log_level d.gather_level)) ∧
    ((SubsystemMap.ctor tbl3 junk).m_gather_levels = [1, 5, 3] ∧
      (SubsystemMap.ctor tbl3 junk).should_gather 1 5 = .ok true ∧
      (SubsystemMap.ctor tbl3 junk).should_gather 1 6 = .ok false) := by
  constructor
  · intro i hi
    have htl : i < tbl.length := hi
    refine ⟨tbl[i], List.getElem?_eq_getElem htl, ?_, ?_⟩
    · rw [ctor_m_subsys, List.getElem?_eq_getElem htl]
    · rw [ctor_m_gather_levels, List.getElem?_map, List.getElem?_eq_getElem htl]
      rfl
  · have h1 : (SubsystemMap.ctor tbl3 junk).m_gather_levels = [1, 5, 3] := by
      rw [ctor_m_gather_levels]
      rfl
    have h2 : (SubsystemMap.ctor tbl3 junk).m_subsys = tbl3 := ctor_m_subsys tbl3 junk
    refine ⟨h1, ?_, ?_⟩
    · unfold SubsystemMap.should_gather
      rw [h1, h2]
      rfl
    · unfold SubsystemMap.should_gather
      rw [h1, h2]
      rfl

/-- C10 on the scenario table with every slot holding `0xAA` beforehand, index 2. -/
theorem C10_construction_witness :
    ∃ d, tbl3[2]? = some d ∧
      (SubsystemMap.ctor tbl3 (fun _ => 170)).m_subsys[2]? = some d ∧
      (SubsystemMap.ctor tbl3 (fun _ => 170)).m_gather_levels[2]? =
        some (max d.log_level d.gather_level) :=
  (C10_construction tbl3 (fun _ => 170)).1 2 (by decide)

/-! ## Further lemmas on the queries -/

theorem should_gather_ok (m : SubsystemMap) (sub : Nat) (level : Int)
    (hlt : sub < m.m_subsys.length) (hgl : sub < m.m_gather_levels.length) :
    m.should_gather sub level = .ok (decide (level ≤ (m.m_gather_levels[sub] : Int))) := by
  simp [SubsystemMap.should_gather, hlt, List.getElem?_eq_getElem hgl]

theorem get_log_level_ok (tbl : List ceph_subsys_item_t) (m : SubsystemMap) (sub : Nat)
    (hsub : sub < SubsystemMap.get_num tbl) (hlt : sub < m.m_subsys.length) :
    m.get_log_level tbl sub = .ok (m.m_subsys[sub].log_level : Int) := by
  have hn : ¬ sub ≥ SubsystemMap.get_num tbl := by omega
  simp [SubsystemMap.get_log_level, hn, List.getElem?_eq_getElem hlt]

theorem get_gather_level_ok (tbl : List ceph_subsys_item_t) (m : SubsystemMap) (sub : Nat)
    (hsub : sub < SubsystemMap.get_num tbl) (hlt : sub < m.m_subsys.length) :
    m.get_gather_level tbl sub = .ok (m.m_subsys[sub].gather_level : Int) := by
  have hn : ¬ sub ≥ SubsystemMap.get_num tbl := by omega
  simp [SubsystemMap.get_gather_level, hn, List.getElem?_eq_getElem hlt]

/-- What `get_log_level` reads back after `set_log_level`: the argument modulo 256. -/
theorem get_log_level_set_log_level (tbl : List ceph_subsys_item_t) (m : SubsystemMap)
    (hs : m.Sized tbl) (sub v : Nat) (hsub : sub < SubsystemMap.get_num tbl) :
    ∃ m1, m.set_log_level sub v = .ok m1 ∧
      m1.get_log_level tbl sub = .ok ((v % 256 : Nat) : Int) := by
  obtain ⟨hg, hr⟩ := hs
  have hlt : sub < m.m_subsys.length := by omega
  have hgl : sub < m.m_gather_levels.length := by omega
  have hn : ¬ sub ≥ SubsystemMap.get_num tbl := by omega
  refine ⟨_, set_log_level_ok m sub v m.m_subsys[sub] (List.getElem?_eq_getElem hlt) hgl, ?_⟩
  simp [SubsystemMap.get_log_level, hn, List.getElem?_set, hlt]

/-- What `get_gather_level` reads back after `set_gather_level`: the argument modulo
256. -/
theorem get_gather_level_set_gather_level (tbl : List ceph_subsys_item_t)
    (m : SubsystemMap) (hs : m.Sized tbl) (sub v : Nat)
    (hsub : sub < SubsystemMap.get_num tbl) :
    ∃ m1, m.set_gather_level sub v = .ok m1 ∧
      m1.get_gather_level tbl sub = .ok ((v % 256 : Nat) : Int) := by
  obtain ⟨hg, hr⟩ := hs
  have hlt : sub < m.m_subsys.length := by omega
  have hgl : sub < m.m_gather_levels.length := by omega
  have hn : ¬ sub ≥ SubsystemMap.get_num tbl := by omega
  refine ⟨_, set_gather_level_ok m sub v m.m_subsys[sub] (List.getElem?_eq_getElem hlt) hgl,
    ?_⟩
  simp [SubsystemMap.get_gather_level, hn, List.getElem?_set, hlt]

theorem uint8_t_of_int_mod (x : Int) :
    ((uint8_t_of_int x % 256 : Nat) : Int) = x % 256 := by
  unfold uint8_t_of_int
  omega

/-! ## The claims, continued -/

/-- C11, as stated, fails: on the scenario map `set_log_level(0, 300)` succeeds but
`get_log_level(0)` afterwards is 44, not 300; likewise `set_gather_level(0, 300)`. -/
theorem C11_counterexample :
    (∃ m1, map3.set_log_level 0 (uint8_t_of_int 300) = .ok m1 ∧
      m1.get_log_level tbl3 0 = .ok 44 ∧ m1.get_log_level tbl3 0 ≠ .ok 300) ∧
    (∃ m2, map3.set_gather_level 0 (uint8_t_of_int 300) = .ok m2 ∧
      m2.get_gather_level tbl3 0 = .ok 44 ∧ m2.get_gather_level tbl3 0 ≠ .ok 300) :=
  ⟨⟨_, rfl, rfl, fun h => by
      have h44 : (Except.ok 44 : Except Fault Int) = .ok 300 := h
      injection h44 with h44
      omega⟩,
    ⟨_, rfl, rfl, fun h => by
      have h44 : (Except.ok 44 : Except Fault Int) = .ok 300 := h
      injection h44 with h44
      omega⟩⟩

/-- C11, amended: no level value is rejected on write, but the level is stored in a
byte. For every valid `sub` and every integer `newLevel`, `set_log_level(sub, newLevel)`
succeeds and stores `newLevel` modulo 256, which `get_log_level(sub)` returns
afterwards; likewise for `set_gather_level` / `get_gather_level`. The stored value is
`newLevel` itself exactly when `0 <= newLevel <= 255`. -/
theorem C11_level_stored_modulo_256 (tbl : List ceph_subsys_item_t) (m : SubsystemMap)
    (hs : m.Sized tbl) (sub : Nat) (hsub : sub < SubsystemMap.get_num tbl)
    (newLevel : Int) :
    (∃ m1, m.set_log_level sub (uint8_t_of_int newLevel) = .ok m1 ∧
      m1.get_log_level tbl sub = .ok (newLevel % 256)) ∧
    (∃ m2, m.set_gather_level sub (uint8_t_of_int newLevel) = .ok m2 ∧
      m2.get_gather_level tbl sub = .ok (newLevel % 256)) ∧
    (newLevel % 256 = newLevel ↔ 0 ≤ newLevel ∧ newLevel ≤ 255) := by
  refine ⟨?_, ?_, by omega⟩
  · obtain ⟨m1, h1, h2⟩ :=
      get_log_level_set_log_level tbl m hs sub (uint8_t_of_int newLevel) hsub
    exact ⟨m1, h1, by rw [h2, uint8_t_of_int_mod]⟩
  · obtain ⟨m2, h1, h2⟩ :=
      get_gather_level_set_gather_level tbl m hs sub (uint8_t_of_int newLevel) hsub
    exact ⟨m2, h1, by rw [h2, uint8_t_of_int_mod]⟩

/-- C11 amended, on the scenario map with subsystem 1 and the level -1, stored as 255. -/
theorem C11_level_stored_modulo_256_witness :
    (∃ m1, map3.set_log_level 1 (uint8_t_of_int (-1)) = .ok m1 ∧
      m1.get_log_level tbl3 1 = .ok ((-1 : Int) % 256)) ∧
    (∃ m2, map3.set_gather_level 1 (uint8_t_of_int (-1)) = .ok m2 ∧
      m2.get_gather_level tbl3 1 = .ok ((-1 : Int) % 256)) ∧
    ((-1 : Int) % 256 = -1 ↔ (0 : Int) ≤ -1 ∧ (-1 : Int) ≤ 255) :=
  C11_level_stored_modulo_256 tbl3 map3 (by decide) 1 (by decide) (-1)

/-- C12: `N` is fixed. In every state reachable from construction by `set_log_level` /
`set_gather_level` calls the number of records and the number of effective entries
both equal `get_num()`, the size of the descriptor table, and a further setter call
that returns leaves both sizes as they were. -/
theorem C12_size_fixed (tbl : List ceph_subsys_item_t) (m : SubsystemMap)
    (h : m.Reachable tbl) :
    m.m_subsys.length = SubsystemMap.get_num tbl ∧
    m.m_gather_levels.length = SubsystemMap.get_num tbl ∧
    SubsystemMap.get_num tbl = tbl.length ∧
    ∀ c m1, m.call c = .ok m1 →
      m1.m_subsys.length = m.m_subsys.length ∧
      m1.m_gather_levels.length = m.m_gather_levels.length := by
  have hs := reachable_sized tbl m h
  refine ⟨hs.2, hs.1, rfl, ?_⟩
  intro c m1 hc
  have hs1 : m1.Sized tbl := by
    cases c with
    | set_log_level subsys log => exact sized_set_log_level tbl m m1 subsys log hs hc
    | set_gather_level subsys gather =>
      exact sized_set_gather_level tbl m m1 subsys gather hs hc
  exact ⟨hs1.2.trans hs.2.symm, hs1.1.trans hs.1.symm⟩

/-- C12 on the scenario map. -/
theorem C12_size_fixed_witness :
    map3.m_subsys.length = SubsystemMap.get_num tbl3 ∧
    map3.m_gather_levels.length = SubsystemMap.get_num tbl3 ∧
    SubsystemMap.get_num tbl3 = tbl3.length ∧
    ∀ c m1, map3.call c = .ok m1 →
      m1.m_subsys.length = map3.m_subsys.length ∧
      m1.m_gather_levels.length = map3.m_gather_levels.length :=
  C12_size_fixed tbl3 map3 ⟨fun _ => 170, [], rfl⟩

/-- C13: the compile-time variant agrees with the runtime form. For every valid `Sub`,
every level `Lvl` in `-1..200` and every map with `N` slots and `N` records (hence
every reachable state), `should_gather<Sub, Lvl>() = should_gather(Sub, Lvl)`; for
`Lvl > 0` the result is exactly `Lvl <= effective[Sub]`, whatever the descriptor's
maximum default level is. -/
theorem C13_static_agrees_with_runtime (tbl : List ceph_subsys_item_t)
    (max_default_level : Nat → Int) (m : SubsystemMap) (hs : m.Sized tbl)
    (Sub : Nat) (Lvl : Int) (hsub : Sub < SubsystemMap.get_num tbl)
    (hlo : -1 ≤ Lvl) (hhi : Lvl ≤ 200) :
    m.should_gather_static tbl max_default_level Sub Lvl = m.should_gather Sub Lvl ∧
    (0 < Lvl → ∃ e, m.m_gather_levels[Sub]? = some e ∧
      m.should_gather_static tbl max_default_level Sub Lvl =
        .ok (decide (Lvl ≤ (e : Int)))) := by
  obtain ⟨hg, hr⟩ := hs
  have hlt : Sub < m.m_subsys.length := by omega
  have hgl : Sub < m.m_gather_levels.length := by omega
  rw [should_gather_ok m Sub Lvl hlt hgl]
  by_cases h0 : Lvl ≤ 0
  · constructor
    · have hle : Lvl ≤ (m.m_gather_levels[Sub] : Int) := by omega
      simp [SubsystemMap.should_gather_static, hsub, hlo, hhi, h0, hle]
    · intro hpos
      omega
  · have hstat : m.should_gather_static tbl max_default_level Sub Lvl =
        .ok (decide (Lvl ≤ (m.m_gather_levels[Sub] : Int))) := by
      simp [SubsystemMap.should_gather_static, hsub, hlo, hhi, h0,
        List.getElem?_eq_getElem hgl, expect]
    exact ⟨hstat, fun _ => ⟨m.m_gather_levels[Sub], List.getElem?_eq_getElem hgl, hstat⟩⟩

/-- C13 on the scenario map: subsystem 1 (effective level 5), level 6, with a maximum
default level of 20. -/
theorem C13_static_agrees_with_runtime_witness :
    map3.should_gather_static tbl3 (fun _ => 20) 1 6 = map3.should_gather 1 6 ∧
    ((0 : Int) < 6 → ∃ e : Nat, map3.m_gather_levels[1]? = some e ∧
      map3.should_gather_static tbl3 (fun _ => 20) 1 6 =
        .ok (decide ((6 : Int) ≤ (e : Int)))) :=
  C13_static_agrees_with_runtime tbl3 (fun _ => 20) map3 (by decide) 1 6
    (by decide) (by decide) (by decide)

/-- C14: read-path bounds safety. When `N >= 1`, for every index `sub`, in or out of
range, and every reachable state, the index that `get_log_level`, `get_gather_level`
and `get_name` use is below `N`, and each of the three returns a value: no read is
out of bounds. -/
theorem C14_read_path_in_bounds (tbl : List ceph_subsys_item_t) (m : SubsystemMap)
    (h : m.Reachable tbl) (hN : 1 ≤ SubsystemMap.get_num tbl) (sub : Nat) :
    ∃ i r d, i = (if sub ≥ SubsystemMap.get_num tbl then 0 else sub) ∧
      i < SubsystemMap.get_num tbl ∧
      m.m_subsys[i]? = some r ∧ tbl[i]? = some d ∧
      m.get_log_level tbl sub = .ok (r.log_level : Int) ∧
      m.get_gather_level tbl sub = .ok (r.gather_level : Int) ∧
      m.get_name tbl sub = .ok d.name := by
  have hs := (reachable_sized tbl m h).2
  have hi : (if sub ≥ SubsystemMap.get_num tbl then 0 else sub) < SubsystemMap.get_num tbl := by
    split <;> omega
  generalize hidx : (if sub ≥ SubsystemMap.get_num tbl then 0 else sub) = i at hi
  have hlt : i < m.m_subsys.length := by omega
  have htl : i < tbl.length := hi
  refine ⟨i, m.m_subsys[i], tbl[i], rfl, hi, List.getElem?_eq_getElem hlt,
    List.getElem?_eq_getElem htl, ?_, ?_, ?_⟩
  · simp [SubsystemMap.get_log_level, hidx, List.getElem?_eq_getElem hlt]
  · simp [SubsystemMap.get_gather_level, hidx, List.getElem?_eq_getElem hlt]
  · simp [SubsystemMap.get_name, hidx, List.getElem?_eq_getElem htl]

/-- C14 on the scenario map with the out-of-range index 4000000000. -/
theorem C14_read_path_in_bounds_witness :
    ∃ i r d, i = (if 4000000000 ≥ SubsystemMap.get_num tbl3 then 0 else 4000000000) ∧
      i < SubsystemMap.get_num tbl3 ∧
      map3.m_subsys[i]? = some r ∧ tbl3[i]? = some d ∧
      map3.get_log_level tbl3 4000000000 = .ok (r.log_level : Int) ∧
      map3.get_gather_level tbl3 4000000000 = .ok (r.gather_level : Int) ∧
      map3.get_name tbl3 4000000000 = .ok d.name :=
  C14_read_path_in_bounds tbl3 map3 ⟨fun _ => 170, [], rfl⟩ (by decide) 4000000000

/-- C15, as stated, fails: for the map constructed from the empty descriptor table
(`N = 0`) the queries `get_log_level(0)`, `get_gather_level(0)` and `get_name(0)`
read index 0 of an empty container, and `should_gather(0, 0)` ends in the assertion
failure. -/
theorem C15_counterexample :
    map0.Reachable [] ∧ SubsystemMap.get_num [] = 0 ∧
      map0.get_log_level [] 0 = .error .out_of_range_access ∧
      map0.get_gather_level [] 0 = .error .out_of_range_access ∧
      map0.get_name [] 0 = .error .out_of_range_access ∧
      map0.should_gather 0 0 = .error .ceph_assert_failed :=
  ⟨⟨fun _ => 170, [], rfl⟩, rfl, rfl, rfl, rfl, rfl⟩

/-- C15, amended: for a map constructed with `N = 0`, the runtime `should_gather` on
every index and every level fails its assertion `ceph_assert(sub < m_subsys.size())`:
it returns no result and reads nothing out of bounds. -/
theorem C15_empty_table_should_gather_asserts (tbl : List ceph_subsys_item_t)
    (m : SubsystemMap) (h : m.Reachable tbl) (hN : SubsystemMap.get_num tbl = 0)
    (sub : Nat) (level : Int) :
    m.should_gather sub level = .error .ceph_assert_failed := by
  have hs := (reachable_sized tbl m h).2
  have hlt : ¬ sub < m.m_subsys.length := by omega
  simp [SubsystemMap.should_gather, hlt]

/-- C15 amended, on the map of the empty table with the index 5 and the level 1. -/
theorem C15_empty_table_should_gather_asserts_witness :
    map0.should_gather 5 1 = .error .ceph_assert_failed :=
  C15_empty_table_should_gather_asserts [] map0 ⟨fun _ => 170, [], rfl⟩ rfl 5 1

/-- C16: the runtime `should_gather` gathers unconditionally at non-positive levels.
For every valid `sub`, every integer `level <= 0` and every map with `N` slots and `N`
records, whatever levels are configured, `should_gather(sub, level)` returns true: the
effective level is an unsigned byte, hence at least 0. -/
theorem C16_runtime_nonpositive_levels (tbl : List ceph_subsys_item_t) (m : SubsystemMap)
    (hs : m.Sized tbl) (sub : Nat) (hsub : sub < SubsystemMap.get_num tbl)
    (level : Int) (hl : level ≤ 0) :
    m.should_gather sub level = .ok true := by
  obtain ⟨hg, hr⟩ := hs
  have hlt : sub < m.m_subsys.length := by omega
  have hgl : sub < m.m_gather_levels.length := by omega
  have hle : level ≤ (m.m_gather_levels[sub] : Int) := by omega
  rw [should_gather_ok m sub level hlt hgl]
  simp [hle]

/-- C16 at a map whose log and gather levels are all 0, subsystem 1, level 0. -/
theorem C16_runtime_nonpositive_levels_witness :
    ({ m_gather_levels := [0, 0, 0],
       m_subsys := [ { name := "none", log_level := 0, gather_level := 0 },
                     { name := "osd", log_level := 0, gather_level := 0 },
                     { name := "ms", log_level := 0, gather_level := 0 } ] } :
      SubsystemMap).should_gather 1 0 = .ok true :=
  C16_runtime_nonpositive_levels tbl3 _ (by decide) 1 (by decide) 0 (by decide)

/-! ## Lemmas on runs of two calls and on the cache -/

theorem run_pair (m m1 m2 : SubsystemMap) (c1 c2 : Call)
    (h1 : m.call c1 = .ok m1) (h2 : m1.call c2 = .ok m2) :
    m.run [c1, c2] = .ok m2 := by
  simp [SubsystemMap.run, h1, h2]

theorem should_gather_of_getElem? (m : SubsystemMap) (sub : Nat) (level : Int) (e : Nat)
    (hlt : sub < m.m_subsys.length) (he : m.m_gather_levels[sub]? = some e) :
    m.should_gather sub level = .ok (decide (level ≤ (e : Int))) := by
  simp [SubsystemMap.should_gather, hlt, he]

/-- In a consistent map the cache slot of a record is the maximum of its two levels. -/
theorem consistent_getElem? (m : SubsystemMap) (hc : m.Consistent) (sub : Nat)
    (hlt : sub < m.m_subsys.length) :
    m.m_gather_levels[sub]? =
      some (max m.m_subsys[sub].log_level m.m_subsys[sub].gather_level) := by
  rw [hc, List.getElem?_map, List.getElem?_eq_getElem hlt]
  rfl

/-- C17: the two setters commute, also on the same subsystem. For all valid `s`, `t`
and all levels `a`, `b` in `0..255`, `set_log_level(s, a)` then `set_gather_level(t, b)`
returns exactly the same map (records and cache) as `set_gather_level(t, b)` then
`set_log_level(s, a)`; when `s = t` the final `effective[s]` is `max(a, b)`. -/
theorem C17_setters_commute (tbl : List ceph_subsys_item_t) (m : SubsystemMap)
    (hs : m.Sized tbl) (s t a b : Nat) (hs1 : s < SubsystemMap.get_num tbl)
    (ht1 : t < SubsystemMap.get_num tbl) (ha : a < 256) (hb : b < 256) :
    ∃ m2, m.run [.set_log_level s a, .set_gather_level t b] = .ok m2 ∧
      m.run [.set_gather_level t b, .set_log_level s a] = .ok m2 ∧
      (s = t → m2.m_gather_levels[s]? = some (max a b)) := by
  obtain ⟨hg, hr⟩ := hs
  have hsl : s < m.m_subsys.length := by omega
  have hsg : s < m.m_gather_levels.length := by omega
  have htl : t < m.m_subsys.length := by omega
  have htg : t < m.m_gather_levels.length := by omega
  have ha1 : a % 256 = a := Nat.mod_eq_of_lt ha
  have hb1 : b % 256 = b := Nat.mod_eq_of_lt hb
  have h1 := set_log_level_ok m s a m.m_subsys[s] (List.getElem?_eq_getElem hsl) hsg
  have h2 := set_gather_level_ok m t b m.m_subsys[t] (List.getElem?_eq_getElem htl) htg
  rw [ha1] at h1
  rw [hb1] at h2
  by_cases hst : s = t
  · subst hst
    have h3 := set_gather_level_ok
      { m_subsys := m.m_subsys.set s { m.m_subsys[s] with log_level := a },
        m_gather_levels := m.m_gather_levels.set s (max a m.m_subsys[s].gather_level) }
      s b { m.m_subsys[s] with log_level := a }
      (by simp [hsl]) (by simpa using hsg)
    have h4 := set_log_level_ok
      { m_subsys := m.m_subsys.set s { m.m_subsys[s] with gather_level := b },
        m_gather_levels := m.m_gather_levels.set s (max m.m_subsys[s].log_level b) }
      s a { m.m_subsys[s] with gather_level := b }
      (by simp [hsl]) (by simpa using hsg)
    rw [hb1] at h3
    rw [ha1] at h4
    refine ⟨_, run_pair _ _ _ _ _ h1 h3, ?_, ?_⟩
    · rw [run_pair m _ _ (.set_gather_level s b) (.set_log_level s a) h2 h4]
      simp [List.set_set]
    · intro _
      simp [List.set_set, hsg]
  · have hts : t ≠ s := fun h => hst h.symm
    have h3 := set_gather_level_ok
      { m_subsys := m.m_subsys.set s { m.m_subsys[s] with log_level := a },
        m_gather_levels := m.m_gather_levels.set s (max a m.m_subsys[s].gather_level) }
      t b m.m_subsys[t]
      (by simp [List.getElem?_set_ne hst, List.getElem?_eq_getElem htl])
      (by simpa using htg)
    have h4 := set_log_level_ok
      { m_subsys := m.m_subsys.set t { m.m_subsys[t] with gather_level := b },
        m_gather_levels := m.m_gather_levels.set t (max m.m_subsys[t].log_level b) }
      s a m.m_subsys[s]
      (by simp [List.getElem?_set_ne hts, List.getElem?_eq_getElem hsl])
      (by simpa using hsg)
    rw [hb1] at h3
    rw [ha1] at h4
    refine ⟨_, run_pair _ _ _ _ _ h1 h3, ?_, fun h => absurd h hst⟩
    rw [run_pair m _ _ (.set_gather_level t b) (.set_log_level s a) h2 h4]
    simp only [Except.ok.injEq, SubsystemMap.mk.injEq]
    exact ⟨List.set_comm _ _ _ hts, List.set_comm _ _ _ hts⟩

/-- C17 on the scenario map, both setters on subsystem 2 with the levels 4 and 9. -/
theorem C17_setters_commute_witness :
    ∃ m2, map3.run [.set_log_level 2 4, .set_gather_level 2 9] = .ok m2 ∧
      map3.run [.set_gather_level 2 9, .set_log_level 2 4] = .ok m2 ∧
      (2 = 2 → m2.m_gather_levels[2]? = some (max 4 9)) :=
  C17_setters_commute tbl3 map3 (by decide) 2 2 4 9 (by decide) (by decide)
    (by decide) (by decide)

/-- A cache whose slots only grew, over the same number of records, keeps every
level gathered that was gathered before. -/
theorem should_gather_mono (m m1 : SubsystemMap) (i : Nat) (level : Int) (e e1 : Nat)
    (hlt : i < m.m_subsys.length) (hlt1 : i < m1.m_subsys.length)
    (he : m.m_gather_levels[i]? = some e) (he1 : m1.m_gather_levels[i]? = some e1)
    (hle : e ≤ e1) (h : m.should_gather i level = .ok true) :
    m1.should_gather i level = .ok true := by
  rw [should_gather_of_getElem? m i level e hlt he] at h
  rw [should_gather_of_getElem? m1 i level e1 hlt1 he1]
  injection h with h
  have h2 : level ≤ (e : Int) := of_decide_eq_true h
  have h3 : level ≤ (e1 : Int) := by omega
  simp [h3]

/-- C18, as stated, fails: the claim puts no bound on `v`. On the scenario map,
subsystem 1 has the log level 5 and `260 >= 5`, yet `set_log_level(1, 260)` stores
`260 mod 256 = 4` and `should_gather(1, 5)` goes from true to false; subsystem 2 has
the gather level 3 and `258 >= 3`, yet `set_gather_level(2, 258)` stores 2 and
`should_gather(2, 3)` goes from true to false. -/
theorem C18_counterexample :
    map3.Reachable tbl3 ∧
    (map3.get_log_level tbl3 1 = .ok 5 ∧ (5 : Int) ≤ ((260 : Nat) : Int) ∧
      ∃ m1, map3.set_log_level 1 260 = .ok m1 ∧
        map3.should_gather 1 5 = .ok true ∧ m1.should_gather 1 5 = .ok false) ∧
    (map3.get_gather_level tbl3 2 = .ok 3 ∧ (3 : Int) ≤ ((258 : Nat) : Int) ∧
      ∃ m2, map3.set_gather_level 2 258 = .ok m2 ∧
        map3.should_gather 2 3 = .ok true ∧ m2.should_gather 2 3 = .ok false) :=
  ⟨⟨fun _ => 170, [], rfl⟩,
    ⟨rfl, by decide, _, rfl, rfl, rfl⟩,
    ⟨rfl, by decide, _, rfl, rfl, rfl⟩⟩

/-- C18, amended: raising a threshold within the byte range never stops a message
from being gathered. In every reachable state, for every valid `sub` and every level
`v` in `0..255`: if `v` is at least the current log level of `sub`, then
`set_log_level(sub, v)` returns and, for every valid `i` and every integer `level`,
`should_gather(i, level)` before the call implies `should_gather(i, level)` after it;
the same holds for `set_gather_level` with `v` at least the current gather level. -/
theorem C18_raising_keeps_gathering (tbl : List ceph_subsys_item_t) (m : SubsystemMap)
    (h : m.Reachable tbl) (sub v : Nat) (hsub : sub < SubsystemMap.get_num tbl)
    (hv : v < 256) :
    (∀ l : Int, m.get_log_level tbl sub = .ok l → l ≤ (v : Int) →
      ∃ m1, m.set_log_level sub v = .ok m1 ∧
        ∀ (i : Nat) (level : Int), i < SubsystemMap.get_num tbl →
          m.should_gather i level = .ok true → m1.should_gather i level = .ok true) ∧
    (∀ g : Int, m.get_gather_level tbl sub = .ok g → g ≤ (v : Int) →
      ∃ m2, m.set_gather_level sub v = .ok m2 ∧
        ∀ (i : Nat) (level : Int), i < SubsystemMap.get_num tbl →
          m.should_gather i level = .ok true → m2.should_gather i level = .ok true) := by
  have hc := reachable_consistent tbl m h
  obtain ⟨hg, hr⟩ := reachable_sized tbl m h
  have hlt : sub < m.m_subsys.length := by omega
  have hgl : sub < m.m_gather_levels.length := by omega
  have hmod : v % 256 = v := Nat.mod_eq_of_lt hv
  have hsub_e := consistent_getElem? m hc sub hlt
  constructor
  · intro l hl hle
    rw [get_log_level_ok tbl m sub hsub hlt] at hl
    injection hl with hl
    have hle2 : m.m_subsys[sub].log_level ≤ v := by omega
    have h1 := set_log_level_ok m sub v m.m_subsys[sub] (List.getElem?_eq_getElem hlt) hgl
    rw [hmod] at h1
    refine ⟨_, h1, ?_⟩
    intro i level hi hbefore
    have hil : i < m.m_subsys.length := by omega
    have hig : i < m.m_gather_levels.length := by omega
    by_cases his : sub = i
    · subst his
      refine should_gather_mono m _ sub level _ (max v m.m_subsys[sub].gather_level)
        hil (by simpa using hil) hsub_e (by simp [hig]) ?_ hbefore
      omega
    · refine should_gather_mono m _ i level m.m_gather_levels[i] m.m_gather_levels[i]
        hil (by simpa using hil) (List.getElem?_eq_getElem hig)
        (by simp [List.getElem?_set_ne his, List.getElem?_eq_getElem hig])
        (Nat.le_refl _) hbefore
  · intro g hgl2 hle
    rw [get_gather_level_ok tbl m sub hsub hlt] at hgl2
    injection hgl2 with hgl2
    have hle2 : m.m_subsys[sub].gather_level ≤ v := by omega
    have h1 :=
      set_gather_level_ok m sub v m.m_subsys[sub] (List.getElem?_eq_getElem hlt) hgl
    rw [hmod] at h1
    refine ⟨_, h1, ?_⟩
    intro i level hi hbefore
    have hil : i < m.m_subsys.length := by omega
    have hig : i < m.m_gather_levels.length := by omega
    by_cases his : sub = i
    · subst his
      refine should_gather_mono m _ sub level _ (max m.m_subsys[sub].log_level v)
        hil (by simpa using hil) hsub_e (by simp [hig]) ?_ hbefore
      omega
    · refine should_gather_mono m _ i level m.m_gather_levels[i] m.m_gather_levels[i]
        hil (by simpa using hil) (List.getElem?_eq_getElem hig)
        (by simp [List.getElem?_set_ne his, List.getElem?_eq_getElem hig])
        (Nat.le_refl _) hbefore

/-- C18 amended, on the scenario map: subsystem 1 has the levels `(5, 0)`, raised to 7. -/
theorem C18_raising_keeps_gathering_witness :
    (∀ l : Int, map3.get_log_level tbl3 1 = .ok l → l ≤ ((7 : Nat) : Int) →
      ∃ m1, map3.set_log_level 1 7 = .ok m1 ∧
        ∀ (i : Nat) (level : Int), i < SubsystemMap.get_num tbl3 →
          map3.should_gather i level = .ok true → m1.should_gather i level = .ok true) ∧
    (∀ g : Int, map3.get_gather_level tbl3 1 = .ok g → g ≤ ((7 : Nat) : Int) →
      ∃ m2, map3.set_gather_level 1 7 = .ok m2 ∧
        ∀ (i : Nat) (level : Int), i < SubsystemMap.get_num tbl3 →
          map3.should_gather i level = .ok true → m2.should_gather i level = .ok true) :=
  C18_raising_keeps_gathering tbl3 map3 ⟨fun _ => 170, [], rfl⟩ 1 7 (by decide) (by decide)

/-- C19: `should_gather` is downward closed in the level: for every `sub`, every state
and all integers `l2 <= l`, `should_gather(sub, l)` true implies `should_gather(sub, l2)`
true; and in every reachable state, for valid `sub`, `should_gather(sub, l)` holds if
and only if `l <= get_log_level(sub)` or `l <= get_gather_level(sub)`. -/
theorem C19_downward_closed (tbl : List ceph_subsys_item_t) (m : SubsystemMap)
    (sub : Nat) (l : Int) :
    (∀ l2 : Int, l2 ≤ l → m.should_gather sub l = .ok true →
      m.should_gather sub l2 = .ok true) ∧
    (m.Reachable tbl → sub < SubsystemMap.get_num tbl →
      ∃ a b : Int, m.get_log_level tbl sub = .ok a ∧ m.get_gather_level tbl sub = .ok b ∧
        (m.should_gather sub l = .ok true ↔ l ≤ a ∨ l ≤ b)) := by
  constructor
  · intro l2 hle h
    by_cases hlt : sub < m.m_subsys.length
    · cases he : m.m_gather_levels[sub]? with
      | none => simp [SubsystemMap.should_gather, hlt, he] at h
      | some e =>
        rw [should_gather_of_getElem? m sub l e hlt he] at h
        rw [should_gather_of_getElem? m sub l2 e hlt he]
        injection h with h
        have h2 : l ≤ (e : Int) := of_decide_eq_true h
        have h3 : l2 ≤ (e : Int) := by omega
        simp [h3]
    · simp [SubsystemMap.should_gather, hlt] at h
  · intro h hsub
    have hc := reachable_consistent tbl m h
    obtain ⟨hg, hr⟩ := reachable_sized tbl m h
    have hlt : sub < m.m_subsys.length := by omega
    refine ⟨_, _, get_log_level_ok tbl m sub hsub hlt,
      get_gather_level_ok tbl m sub hsub hlt, ?_⟩
    rw [should_gather_of_getElem? m sub l _ hlt (consistent_getElem? m hc sub hlt)]
    simp only [Except.ok.injEq, decide_eq_true_eq]
    omega

/-- C19 on the scenario map, subsystem 2 (levels `(0, 3)`), level 3. -/
theorem C19_downward_closed_witness :
    (∀ l2 : Int, l2 ≤ 3 → map3.should_gather 2 3 = .ok true →
      map3.should_gather 2 l2 = .ok true) ∧
    (∃ a b : Int, map3.get_log_level tbl3 2 = .ok a ∧ map3.get_gather_level tbl3 2 = .ok b ∧
        (map3.should_gather 2 3 = .ok true ↔ (3 : Int) ≤ a ∨ (3 : Int) ≤ b)) :=
  ⟨(C19_downward_closed tbl3 map3 2 3).1,
    (C19_downward_closed tbl3 map3 2 3).2 ⟨fun _ => 170, [], rfl⟩ (by decide)⟩

end ceph.logging
